import Mathlib

/-!
Verification of the Mermaid-generation pipeline of this repository
(source: src/mermaid_generator.py).

The Python module is shallowly embedded: strings are Lean strings (lists of
characters), the regex substitutions of the source are spelled out as
deterministic character scanners that implement exactly the leftmost,
non-overlapping match semantics of re.sub / re.search for the concrete
patterns appearing in the source, and the three network calls of the
pipeline (scoring, refinement, generation) are modelled by per-request
oracle values giving the reply of the completion service (or its failure),
together with an explicit trace of which network calls were issued.
Python exceptions are modelled by structured error values (Except); the
payload of each error keeps the data the source puts into the message,
while the textual formatting of messages (str interpolation, repr) is
abstracted away.
-/

set_option maxRecDepth 20000

namespace StudentTools

/-! ## Character-level utilities shared by the embedding -/

/-- Python str.strip() whitespace set: space, tab, newline, carriage
return, vertical tab, form feed.  The same set is what the source's
regexes mean by a whitespace class on the inputs considered here. -/
def isPyWs (c : Char) : Bool :=
  c = ' ' || c = '\t' || c = '\n' || c = '\r' || c = '\x0b' || c = '\x0c'

/-- Removal of a leading and a trailing run of characters satisfying p
(the common shape of str.strip and of the anchored stripping regex of
refine_prompt). -/
def stripEnds (p : Char → Bool) (l : List Char) : List Char :=
  ((l.dropWhile p).reverse.dropWhile p).reverse

/-- Python s.strip() on a character list. -/
def pyStrip (l : List Char) : List Char :=
  stripEnds isPyWs l

/-- Python s.strip() on a string. -/
def pyStripS (s : String) : String :=
  (pyStrip s.data).asString

/-- Python s.split(chr 10): splits on every newline, keeping empty parts;
the empty string yields one empty part. -/
def splitLines : List Char → List (List Char)
  | [] => [[]]
  | '\n' :: cs => [] :: splitLines cs
  | c :: cs =>
    match splitLines cs with
    | l :: ls => (c :: l) :: ls
    | [] => [[c]]

/-- Python (chr 10).join on line lists. -/
def joinLines (ls : List (List Char)) : List Char :=
  List.intercalate ['\n'] ls

/-- Python s.lower(), restricted to the character mapping of Char.toLower
(agrees with Python on all characters relevant to the source's markers). -/
def pyLower (l : List Char) : List Char :=
  l.map Char.toLower

/-- Occurrence of pat as a contiguous substring of l (Python `in`). -/
def hasSub (pat : List Char) : List Char → Bool
  | [] => pat.isEmpty
  | c :: cs => pat.isPrefixOf (c :: cs) || hasSub pat cs

/-! ## extract_mermaid_code (src/mermaid_generator.py lines 452-464) -/

/-- Interior of a fenced block: the characters before the first later
occurrence of three backticks; none if no closing fence exists.  This is
the lazy group (.*?) of the source's fence regex under re.DOTALL. -/
def upToTicks : List Char → Option (List Char)
  | [] => none
  | c :: cs =>
    if ['\x60', '\x60', '\x60'].isPrefixOf (c :: cs) then some []
    else (upToTicks cs).map (c :: ·)

/-- Attempt of the fence regex at one position: the opener is three
backticks, optionally followed by the literal language hint mermaid,
then a mandatory newline; the match succeeds only if a closing triple
backtick occurs later. -/
def fenceTryAt (cs : List Char) : Option (List Char) :=
  if ("\x60\x60\x60mermaid\n".data).isPrefixOf cs then upToTicks (cs.drop 11)
  else if ("\x60\x60\x60\n".data).isPrefixOf cs then upToTicks (cs.drop 4)
  else none

/-- re.search for the fence pattern: leftmost position whose attempt
succeeds, yielding the lazy interior. -/
def searchFence : List Char → Option (List Char)
  | [] => none
  | c :: cs =>
    match fenceTryAt (c :: cs) with
    | some r => some r
    | none => searchFence cs

/-- The tuple valid_starts of the source (17 keyword strings). -/
def valid_starts : List (List Char) :=
  ["flowchart".data, "graph".data, "sequenceDiagram".data, "classDiagram".data,
   "stateDiagram".data, "erDiagram".data, "journey".data, "gantt".data,
   "pie".data, "quadrantChart".data, "mindmap".data, "timeline".data,
   "gitGraph".data, "sankey-beta".data, "xychart-beta".data, "block-beta".data,
   "kanban".data]

/-- line.strip().startswith(valid_starts) of the source. -/
def startsValid (l : List Char) : Bool :=
  valid_starts.any (fun v => v.isPrefixOf (pyStrip l))

/-- The scan of the source's for loop: the suffix of the line list from
the first line whose stripped content starts with a valid keyword. -/
def firstValidSuffix : List (List Char) → Option (List (List Char))
  | [] => none
  | l :: ls => if startsValid l then some (l :: ls) else firstValidSuffix ls

/-- extract_mermaid_code of the source.  A raised ValueError is modelled
as an error value carrying the data of the message: the first 200
characters of the (stripped) text, text[:200]. -/
def extract_mermaid_code (text : String) : Except String String :=
  let cs := pyStrip text.data
  match searchFence cs with
  | some interior => .ok (pyStrip interior).asString
  | none =>
    match firstValidSuffix (splitLines cs) with
    | some suffix => .ok (pyStrip (joinLines suffix)).asString
    | none => .error (cs.take 200).asString

/-! ## sanitize_mermaid_code (src/mermaid_generator.py lines 467-486) -/

/-- First substitution of sanitize_mermaid_code: every occurrence of
three backticks, together with a directly following literal mermaid,
is deleted (re.sub of the fence-marker pattern with the empty string). -/
def stripFences : List Char → List Char
  | '\x60' :: '\x60' :: '\x60' :: 'm' :: 'e' :: 'r' :: 'm' :: 'a' :: 'i' :: 'd' :: cs =>
    stripFences cs
  | '\x60' :: '\x60' :: '\x60' :: cs => stripFences cs
  | c :: cs => c :: stripFences cs
  | [] => []

/-- Content of a single-brace group: the characters before the first
brace, provided that brace closes the group; fails on a nested opening
brace or a missing closing brace.  This is the ([^{}]+) \x7d part of the
flowchart brace regex (the nonemptiness of the content is checked by the
caller). -/
def braceContent : List Char → Option (List Char × List Char)
  | [] => none
  | c :: cs =>
    if c = '\x7b' then none
    else if c = '\x7d' then some ([], cs)
    else (braceContent cs).map (fun p => (c :: p.1, p.2))

/-- Match attempt of the single-brace regex after its opening brace:
nonempty brace-free content, a closing brace, and a negative lookahead
for a second closing brace. -/
def sub1TryAt (cs : List Char) : Option (List Char × List Char) :=
  (braceContent cs).bind
    (fun p => if p.1 ≠ [] ∧ p.2.head? ≠ some '\x7d' then some p else none)

/-- Scanner of re.sub for the pattern (?<!\x7b)\x7b([^{}]+)\x7d(?!\x7d)
with replacement \x7b\x7b\1\x7d\x7d: leftmost matches, each replaced,
scanning resumed after the match; the Boolean records whether the
previous character of the original text is an opening brace (the
lookbehind).  Fuel bounds the number of scan steps; each step consumes
at least one character, so fuel equal to the length is always enough. -/
def flowSub1Go : Nat → Bool → List Char → List Char
  | 0, _, cs => cs
  | _ + 1, _, [] => []
  | n + 1, prevLb, c :: cs =>
    if c = '\x7b' ∧ prevLb = false then
      match sub1TryAt cs with
      | some (t, s) => '\x7b' :: '\x7b' :: (t ++ '\x7d' :: '\x7d' :: flowSub1Go n false s)
      | none => c :: flowSub1Go n true cs
    else c :: flowSub1Go n (decide (c = '\x7b')) cs

/-- The full first flowchart substitution. -/
def flowSub1Run (cs : List Char) : List Char :=
  flowSub1Go cs.length false cs

/-- Interior of a double-brace group: the characters before the first
closing brace, which must be directly followed by a second closing
brace. -/
def innerToRBrace : List Char → Option (List Char × List Char)
  | [] => none
  | c :: cs =>
    if c = '\x7d' then
      match cs with
      | [] => none
      | c' :: s => if c' = '\x7d' then some ([], s) else none
    else (innerToRBrace cs).map (fun p => (c :: p.1, p.2))

/-- Removal of the first occurrence of a character satisfying p. -/
def removeFirstSuch (p : Char → Bool) : List Char → List Char
  | [] => []
  | c :: cs => if p c then cs else c :: removeFirstSuch p cs

/-- Double-quote character. -/
def isQuote (c : Char) : Bool :=
  c = '"'

/-- Number of double-quote characters in a list. -/
def countQuotes (l : List Char) : Nat :=
  l.countP isQuote

/-- Match attempt of the quote-stripping regex after its two opening
braces: a brace-free interior holding at least two double quotes, closed
by two braces.  By greediness of the first group, the pair of quotes
consumed (and deleted) by the match is the last pair of the interior. -/
def sub2TryAt (cs : List Char) : Option (List Char × List Char) :=
  (innerToRBrace cs).bind
    (fun p =>
      if 2 ≤ countQuotes p.1 then
        some ((removeFirstSuch isQuote (removeFirstSuch isQuote p.1.reverse)).reverse, p.2)
      else none)

/-- Scanner of re.sub for \x7b\x7b([^}]*)"([^"}]*)"([^}]*)\x7d\x7d with
replacement \x7b\x7b\1\2\3\x7d\x7d. -/
def flowSub2Go : Nat → List Char → List Char
  | 0, cs => cs
  | _ + 1, [] => []
  | n + 1, [c] => c :: flowSub2Go n []
  | n + 1, c :: c2 :: rest =>
    if c = '\x7b' ∧ c2 = '\x7b' then
      match sub2TryAt rest with
      | some (inter, s) => '\x7b' :: '\x7b' :: (inter ++ '\x7d' :: '\x7d' :: flowSub2Go n s)
      | none => c :: flowSub2Go n (c2 :: rest)
    else c :: flowSub2Go n (c2 :: rest)

/-- The full second flowchart substitution. -/
def flowSub2Run (cs : List Char) : List Char :=
  flowSub2Go cs.length cs

/-- Question mark or exclamation mark. -/
def isPunc (c : Char) : Bool :=
  c = '?' || c = '!'

/-- Match attempt of the punctuation-stripping regex after its two
opening braces: a brace-free interior holding at least one question or
exclamation mark, closed by two braces; greediness removes the last such
character. -/
def sub3TryAt (cs : List Char) : Option (List Char × List Char) :=
  (innerToRBrace cs).bind
    (fun p =>
      if p.1.any isPunc then some ((removeFirstSuch isPunc p.1.reverse).reverse, p.2)
      else none)

/-- Scanner of re.sub for \x7b\x7b([^}]*)[?!]([^}]*)\x7d\x7d with
replacement \x7b\x7b\1\2\x7d\x7d. -/
def flowSub3Go : Nat → List Char → List Char
  | 0, cs => cs
  | _ + 1, [] => []
  | n + 1, [c] => c :: flowSub3Go n []
  | n + 1, c :: c2 :: rest =>
    if c = '\x7b' ∧ c2 = '\x7b' then
      match sub3TryAt rest with
      | some (inter, s) => '\x7b' :: '\x7b' :: (inter ++ '\x7d' :: '\x7d' :: flowSub3Go n s)
      | none => c :: flowSub3Go n (c2 :: rest)
    else c :: flowSub3Go n (c2 :: rest)

/-- The full third flowchart substitution. -/
def flowSub3Run (cs : List Char) : List Char :=
  flowSub3Go cs.length cs

/-- Word character of the task-identifier pattern [a-zA-Z0-9_]. -/
def isWordChar (c : Char) : Bool :=
  ('a' ≤ c && c ≤ 'z') || ('A' ≤ c && c ≤ 'Z') || ('0' ≤ c && c ≤ '9') || c = '_'

/-- re.search of :[a-zA-Z0-9_]+, on a line: some colon is followed by a
nonempty run of word characters whose maximal extent is directly
followed by a comma. -/
def hasTaskId : List Char → Bool
  | [] => false
  | ':' :: cs =>
    (let run := cs.takeWhile isWordChar
     decide (run ≠ []) &&
       (match cs.drop run.length with
        | ',' :: _ => true
        | _ => false)) ||
    hasTaskId cs
  | _ :: cs => hasTaskId cs

/-- One keyword alternative of the Gantt token pattern: the literal
keyword, one-or-more whitespace, then a nonempty greedy run of non-comma
characters.  With w2 the maximal whitespace run after the keyword and
body the maximal non-comma run after w2, the alternative matches when
body is nonempty (greedy whitespace, then the body), and also — by
backtracking of the one-or-more whitespace group — when body is empty
but w2 has at least two characters: the whitespace group then gives up
its last character, which the non-comma run consumes instead (whitespace
is not a comma).  In both cases the captured group is the keyword, the
whole whitespace run and the body, and the remainder starts after the
body. -/
def kwTry (kw : String) (r1 : List Char) : Option (List Char × List Char) :=
  if kw.data.isPrefixOf r1 then
    let r2 := r1.drop kw.length
    let w2 := r2.takeWhile isPyWs
    if w2 = [] then none
    else
      let r3 := r2.drop w2.length
      let body := r3.takeWhile (fun c => c ≠ ',')
      if body = [] then
        if 2 ≤ w2.length then some (kw.data ++ w2, r3) else none
      else some (kw.data ++ w2 ++ body, r3.drop body.length)
  else none

/-- Match attempt of the Gantt token pattern after a colon: greedy
whitespace, then the alternation (after, des, active, each followed by
one-or-more whitespace and a non-comma run, with the backtracking case
of kwTry) tried in source order, else a nonempty run of digits and
hyphens.  Returns the second capture group and the remaining
characters; the whitespace group after the colon is dropped by the
replacement. -/
def ganttTryTok (cs : List Char) : Option (List Char × List Char) :=
  let ws := cs.takeWhile isPyWs
  let r1 := cs.drop ws.length
  match kwTry "after" r1 with
  | some r => some r
  | none =>
    match kwTry "des" r1 with
    | some r => some r
    | none =>
      match kwTry "active" r1 with
      | some r => some r
      | none =>
        let run := r1.takeWhile (fun c => c.isDigit || c = '-')
        if run = [] then none else some (run, r1.drop run.length)

/-- Scanner of re.sub for :(\s*)((?:after|des|active)\s+[^,]+|[\d-]+)
with replacement :task-n-comma-space-group2 (the rf-string of the
source), applied to every match of one line with the same counter
value n. -/
def ganttSubGo (n : Nat) : Nat → List Char → List Char
  | 0, cs => cs
  | _ + 1, [] => []
  | fuel + 1, ':' :: cs =>
    (match ganttTryTok cs with
     | some (g2, rest) =>
       ':' :: ("task".data ++ (toString n).data ++ ", ".data ++ g2) ++ ganttSubGo n fuel rest
     | none => ':' :: ganttSubGo n fuel cs)
  | fuel + 1, c :: cs => c :: ganttSubGo n fuel cs

/-- The substitution of one Gantt line. -/
def ganttSubLine (n : Nat) (l : List Char) : List Char :=
  ganttSubGo n l.length l

/-- The qualifying condition of the source's Gantt loop: the line holds a
colon, the lowercased line does not contain the substring section, and
the line has no explicit task identifier token. -/
def ganttQual (l : List Char) : Bool :=
  l.any (fun c => c = ':') && !(hasSub "section".data (pyLower l)) && !(hasTaskId l)

/-- The source's Gantt loop: for each qualifying line the substitution
runs with the current counter value, and the counter increments whether
or not the substitution found a token to rewrite. -/
def ganttAux (n : Nat) : List (List Char) → List (List Char)
  | [] => []
  | l :: ls =>
    if ganttQual l then ganttSubLine n l :: ganttAux (n + 1) ls
    else l :: ganttAux n ls

/-- The trailing-prose markers of the source's final loop. -/
def proseMarker (l : List Char) : Bool :=
  ["note:".data, "explanation:".data, "this diagram".data, "the above".data].any
    (fun m => m.isPrefixOf (pyLower (pyStrip l)))

/-- The final loop of sanitize_mermaid_code: lines are kept until the
first line whose stripped, lowered content starts with a prose marker;
that line and everything after it are dropped. -/
def proseTrim : List (List Char) → List (List Char)
  | [] => []
  | l :: ls => if proseMarker l then [] else l :: proseTrim ls

/-- sanitize_mermaid_code of the source. -/
def sanitize_mermaid_code (code diagram_type : String) : String :=
  let cs := pyStrip (stripFences code.data)
  let cs := if diagram_type = "Flowchart" then flowSub3Run (flowSub2Run (flowSub1Run cs)) else cs
  let cs := if diagram_type = "Gantt" then joinLines (ganttAux 1 (splitLines cs)) else cs
  (pyStrip (joinLines (proseTrim (splitLines cs)))).asString

/-! ## score_prompt (lines 354-400) and refine_prompt (lines 404-448)

Each makes a single completion call inside a try block whose except
clause absorbs every failure.  The call is modelled by an oracle value:
none when anything in the call raises (network error, timeout, non-2xx
status via raise_for_status, malformed JSON, missing keys), some content
when the reply parses and yields a message content string. -/

/-- Value of a nonempty digit run. -/
def digitsVal (l : List Char) : Nat :=
  l.foldl (fun a c => a * 10 + (c.toNat - 48)) 0

/-- re.search of one-or-more digits: the maximal digit run starting at
the first digit of the text, if any digit occurs. -/
def firstNumber (cs : List Char) : Option Nat :=
  let rest := cs.dropWhile (fun c => !c.isDigit)
  match rest with
  | [] => none
  | _ => some (digitsVal (rest.takeWhile Char.isDigit))

/-- score_prompt of the source: on any failure of the completion call
the except clause returns 3; on a reply, the first integer token of the
stripped content is clamped by max 0 (min 10 score); with no integer
token the fallback 3 is returned. -/
def score_prompt (reply : Option String) : Int :=
  match reply with
  | none => 3
  | some content =>
    let score_text := pyStrip content.data
    match firstNumber score_text with
    | some n => max 0 (min 10 (n : Int))
    | none => 3

/-- Double quote or whitespace: the class of the source's stripping
regex in refine_prompt. -/
def isQuoteWs (c : Char) : Bool :=
  c = '"' || isPyWs c

/-- re.sub of the anchored pattern removing a leading and a trailing run
of quote/whitespace characters. -/
def stripQuotesWs (l : List Char) : List Char :=
  stripEnds isQuoteWs l

/-- refine_prompt of the source: on any failure of the completion call
the except clause returns the input unchanged; on a reply, the content
is stripped and then stripped of surrounding quote/whitespace runs. -/
def refine_prompt (user_input : String) (reply : Option String) : String :=
  match reply with
  | none => user_input
  | some content => (stripQuotesWs (pyStrip content.data)).asString

/-! ## str.format (used at line 513 of the source)

The templates only use the replacement field description and escaped
double braces, but two templates contain other brace material, so the
model implements the generic scan of str.format: doubled braces produce
one literal brace, a single opening brace opens a replacement field read
up to the next closing brace (a field other than description raises
KeyError), an unpaired brace raises ValueError. -/

inductive FmtErr where
  | keyError (field : String)
  | braceError
deriving DecidableEq, Repr

/-- Field of a replacement group: the characters before the first
closing brace. -/
def fieldSplit : List Char → Option (List Char × List Char)
  | [] => none
  | '\x7d' :: r => some ([], r)
  | c :: cs => (fieldSplit cs).map (fun p => (c :: p.1, p.2))

/-- The scan of str.format specialised to one keyword argument named
description.  Fuel bounds the scan steps; each step consumes at least
one character. -/
def pyFormatGo (value : String) : Nat → List Char → Except FmtErr (List Char)
  | 0, cs => .ok cs
  | _ + 1, [] => .ok []
  | n + 1, '\x7b' :: '\x7b' :: cs =>
    (pyFormatGo value n cs).map (fun r => '\x7b' :: r)
  | n + 1, '\x7d' :: '\x7d' :: cs =>
    (pyFormatGo value n cs).map (fun r => '\x7d' :: r)
  | _ + 1, '\x7d' :: _ => .error .braceError
  | n + 1, '\x7b' :: cs =>
    (match fieldSplit cs with
     | some (field, rest) =>
       if field = "description".data then
         (pyFormatGo value n rest).map (fun r => value.data ++ r)
       else .error (.keyError field.asString)
     | none => .error .braceError)
  | n + 1, c :: cs => (pyFormatGo value n cs).map (fun r => c :: r)

/-- template.format(description := value) of the source. -/
def pyFormat (template value : String) : Except FmtErr String :=
  (pyFormatGo value template.data.length template.data).map List.asString

/-! ## The PROMPTS templates (lines 10-349), transcribed verbatim -/

/-- Template string of PROMPTS for the "Flowchart" key, verbatim from the source. -/
def promptFlowchart : String :=
  "\nYou are a Mermaid.js expert. Generate ONLY valid Mermaid flowchart code.\nStart with \x27flowchart TD\x27.\n\nUse this structure for educational diagrams:\n- Main concept as first node: A[\"Water Cycle: The continuous movement of water on, above, and below Earth\x27s surface\"]\n- Then show stages as rectangles with SHORT explanations (max 2 lines, use \\n for line break)\n- Example: B[\"Evaporation\\nSun heats water \u2192 vapor rises\"]\n- Use simple arrows: A --> B\n- Close the cycle: LastNode --> FirstStage\n\nValid node shapes:\n- Rectangle: A[\"Text\"]\n- Stadium: C([\"Start/End\"])\n\nCRITICAL:\n- Use \\n for line breaks inside nodes\n- Keep each line under 30 characters\n- DO NOT use diamonds or circles\n- Output ONLY code, no explanations\n\nGenerate a flowchart for: \x7bdescription\x7d\n"

/-- Template string of PROMPTS for the "Sequence Diagram" key, verbatim from the source. -/
def promptSequenceDiagram : String :=
  "\nYou are a Mermaid.js v11+ expert. Generate ONLY valid Mermaid sequence diagram code.\nThe code must start with \x27sequenceDiagram\x27.\n\nExample:\nsequenceDiagram\n    participant User\n    participant App\n    User->>App: Login Request\n    App-->>User: Authentication Success\n\nNow generate a sequence diagram for:\n\x7bdescription\x7d\n\nRULES:\n- Output ONLY raw Mermaid code. No explanations.\n- Define participants before using them.\n"

/-- Template string of PROMPTS for the "Class Diagram" key, verbatim from the source. -/
def promptClassDiagram : String :=
  "\nYou are a Mermaid.js v11+ expert. Generate ONLY valid Mermaid class diagram code.\nThe code must start with \x27classDiagram\x27.\n\nExample:\nclassDiagram\n    class Animal \x7b\n        +String name\n        +makeSound()\n    \x7d\n    Animal <|-- Dog\n\nNow generate a class diagram for:\n\x7bdescription\x7d\n\nRULES:\n- Output ONLY raw Mermaid code. No explanations.\n- Use +, -, # for visibility.\n"

/-- Template string of PROMPTS for the "State Diagram" key, verbatim from the source. -/
def promptStateDiagram : String :=
  "\nYou are a Mermaid.js v11+ expert. Generate ONLY valid Mermaid state diagram code.\nThe code must start with \x27stateDiagram-v2\x27.\n\nExample:\nstateDiagram-v2\n    [*] --> Active\n    Active --> Inactive : Deactivate\n    Inactive --> Active : Activate\n\nNow generate a state diagram for:\n\x7bdescription\x7d\n\nRULES:\n- Output ONLY raw Mermaid code. No explanations.\n- Use [*] for start/end states.\n"

/-- Template string of PROMPTS for the "ER Diagram" key, verbatim from the source. -/
def promptErDiagram : String :=
  "\nYou are a Mermaid.js v11+ expert. Generate ONLY valid Mermaid ER diagram code.\nThe code must start with \x27erDiagram\x27.\n\nRelationship syntax:\n- One to one: ||--||\n- One to many: ||--o\x7b\x7b\n- Many to one: \x7d\x7do--||\n- Many to many: \x7d\x7do--o\x7b\x7b\n\nAttributes syntax:\nENTITY \x7b\x7b\n    type attributeName\n\x7d\x7d\n\nExample:\nerDiagram\n    CUSTOMER ||--o\x7b\x7b ORDER : places\n    ORDER ||--|\x7b\x7b LINE-ITEM : contains\n    PRODUCT ||--o\x7b\x7b LINE-ITEM : \"ordered in\"\n    CUSTOMER \x7b\x7b\n        int id\n        string name\n        string email\n    \x7d\x7d\n    ORDER \x7b\x7b\n        int orderID\n        date orderDate\n    \x7d\x7d\n\nNow generate an ER diagram for:\n\x7bdescription\x7d\n\nRULES:\n- Output ONLY raw Mermaid code. No explanations.\n- Use crow\x27s foot notation correctly.\n"

/-- Template string of PROMPTS for the "User Journey" key, verbatim from the source. -/
def promptUserJourney : String :=
  "\nYou are a Mermaid.js v11+ expert. Generate ONLY valid Mermaid user journey code.\nThe code must start with \x27journey\x27.\n\nExample:\njourney\n    title User Login Flow\n    section Authentication\n      Enter credentials: 5: User\n      Submit form: 3: User\n\nNow generate a user journey for:\n\x7bdescription\x7d\n\nRULES:\n- Output ONLY raw Mermaid code. No explanations.\n- Include \x27title\x27 and \x27section\x27 headers.\n"

/-- Template string of PROMPTS for the "Gantt" key, verbatim from the source. -/
def promptGantt : String :=
  "\nYou are a Mermaid.js v11+ expert. Generate ONLY valid Mermaid Gantt chart code.\nThe code must start with \x27gantt\x27 and include \x27dateFormat YYYY-MM-DD\x27.\n\nExample:\ngantt\n    dateFormat YYYY-MM-DD\n    title Project Schedule\n    section Phase 1\n    Task A :a1, 2025-01-01, 5d\n    Task B :a2, after a1, 3d\n    section Phase 2\n    Task C :a3, after a2, 4d\n\nNow generate a Gantt chart for: \x7bdescription\x7d\n\nCRITICAL RULES:\n- Every task MUST have a unique ID like :a1, :a2, :a3\n- Use \x27after taskID\x27 or specific dates\n- NO spaces in task IDs\n- Output ONLY raw Mermaid code\n"

/-- Template string of PROMPTS for the "Pie Chart" key, verbatim from the source. -/
def promptPieChart : String :=
  "\nYou are a Mermaid.js v11+ expert. Generate ONLY valid Mermaid pie chart code.\nThe code must start with \x27pie\x27.\n\nExample:\npie showData\n    title Pets adopted by volunteers\n    \"Dogs\" : 386\n    \"Cats\" : 85\n\nNow generate a pie chart for:\n\x7bdescription\x7d\n\nRULES:\n- Output ONLY raw Mermaid code. No explanations.\n- Labels must be in double quotes.\n"

/-- Template string of PROMPTS for the "Quadrant Chart" key, verbatim from the source. -/
def promptQuadrantChart : String :=
  "\nYou are a Mermaid.js v11+ expert. Generate ONLY valid Mermaid quadrant chart code.\nThe code must start with \x27quadrantChart\x27.\n\nExample:\nquadrantChart\n    title Market Analysis\n    x-axis Low Reach --> High Reach\n    y-axis Low Engagement --> High Engagement\n    quadrant-1 We should expand\n    quadrant-2 Need to promote\n    quadrant-3 Re-evaluate\n    quadrant-4 May be improved\n    Product A: [0.7, 0.8]\n\nNow generate a quadrant chart for:\n\x7bdescription\x7d\n\nRULES:\n- Output ONLY raw Mermaid code. No explanations.\n- Define x-axis, y-axis, and all quadrants.\n"

/-- Template string of PROMPTS for the "Timeline" key, verbatim from the source. -/
def promptTimeline : String :=
  "\nYou are a Mermaid.js v11+ expert. Generate ONLY valid Mermaid timeline code.\nThe code must start with \x27timeline\x27.\n\nExample:\ntimeline\n    title Project Timeline\n    2025-01 : Kickoff\n    2025-02 : Design phase\n\nNow generate a timeline for:\n\x7bdescription\x7d\n\nRULES:\n- Output ONLY raw Mermaid code. No explanations.\n- Use YYYY-MM or YYYY-MM-DD for dates.\n"

/-- Template string of PROMPTS for the "Sankey" key, verbatim from the source. -/
def promptSankey : String :=
  "\nYou are a Mermaid.js v11+ expert. Generate ONLY valid Mermaid Sankey diagram code.\nThe code must start with \x27sankey-beta\x27.\n\nExample:\nsankey-beta\n    Budget,Marketing,1000\n    Budget,Development,2000\n    Marketing,Online Ads,600\n\nNow generate a Sankey diagram for:\n\x7bdescription\x7d\n\nRULES:\n- Output ONLY raw Mermaid code. No explanations.\n- Format is Source,Target,Value\n"

/-- Template string of PROMPTS for the "XY Chart" key, verbatim from the source. -/
def promptXyChart : String :=
  "\nYou are a Mermaid.js v11+ expert. Generate ONLY valid Mermaid XY chart code.\nThe code must start with \x27xychart-beta\x27.\n\nExample:\nxychart-beta\n    title Sales Trend\n    x-axis [Jan, Feb, Mar, Apr, May]\n    y-axis \"Revenue\" 0 --> 100\n    line [20, 45, 60, 55, 80]\n\nNow generate an XY chart for:\n\x7bdescription\x7d\n\nRULES:\n- Output ONLY raw Mermaid code. No explanations.\n- Define title, x-axis, y-axis, and data.\n"

/-- Template string of PROMPTS for the "Block Diagram" key, verbatim from the source. -/
def promptBlockDiagram : String :=
  "\nYou are a Mermaid.js v11+ expert. Generate ONLY valid Mermaid block diagram code.\nThe code must start with \x27block-beta\x27.\n\nExample:\nblock-beta\n    columns 3\n    Frontend Backend Database\n    API[\"API Layer\"]\n    Frontend --> API\n    API --> Backend\n\nNow generate a block diagram for:\n\x7bdescription\x7d\n\nRULES:\n- Output ONLY raw Mermaid code. No explanations.\n- Define columns first.\n"

/-- Template string of PROMPTS for the "Kanban" key, verbatim from the source. -/
def promptKanban : String :=
  "\nYou are a Mermaid.js v11+ expert. Generate ONLY valid Mermaid Kanban board code.\nThe code must start with \x27kanban\x27.\n\nExample:\nkanban\n    Todo\n        Task 1\n        Task 2\n    In Progress\n        Task 3\n\nNow generate a Kanban board for:\n\x7bdescription\x7d\n\nRULES:\n- Output ONLY raw Mermaid code. No explanations.\n- Use column names followed by indented tasks.\n"

/-- Template string of PROMPTS for the "GitGraph" key, verbatim from the source. -/
def promptGitgraph : String :=
  "\nYou are a Mermaid.js v11+ expert. Generate ONLY valid Mermaid git graph code.\nThe code must start with \x27gitGraph\x27.\n\nExample:\ngitGraph\n    commit\n    branch feature\n    checkout feature\n    commit\n    checkout main\n    merge feature\n\nNow generate a git graph for:\n\x7bdescription\x7d\n\nRULES:\n- Output ONLY raw Mermaid code. No explanations.\n- Use commands: commit, branch, checkout, merge.\n"

/-- Template string of PROMPTS for the "Mindmap" key, verbatim from the source. -/
def promptMindmap : String :=
  "\nYou are a Mermaid.js v11+ expert. Generate ONLY valid Mermaid mindmap code.\nThe code must start with \x27mindmap\x27. DO NOT use ::icon() syntax.\n\nExample:\nmindmap\n  root((Project))\n    Planning\n      Goals\n      Timeline\n    Execution\n\nNow generate a mindmap for:\n\x7bdescription\x7d\n\nRULES:\n- Output ONLY raw Mermaid code. No explanations.\n- Indent with 2 spaces per level.\n- DO NOT use ::icon() syntax.\n"

/-- The module-level PROMPTS dictionary, as a lookup with dict.get semantics. -/
def PROMPTS (diagram_type : String) : Option String :=
  if diagram_type = "Flowchart" then some promptFlowchart
  else if diagram_type = "Sequence Diagram" then some promptSequenceDiagram
  else if diagram_type = "Class Diagram" then some promptClassDiagram
  else if diagram_type = "State Diagram" then some promptStateDiagram
  else if diagram_type = "ER Diagram" then some promptErDiagram
  else if diagram_type = "User Journey" then some promptUserJourney
  else if diagram_type = "Gantt" then some promptGantt
  else if diagram_type = "Pie Chart" then some promptPieChart
  else if diagram_type = "Quadrant Chart" then some promptQuadrantChart
  else if diagram_type = "Timeline" then some promptTimeline
  else if diagram_type = "Sankey" then some promptSankey
  else if diagram_type = "XY Chart" then some promptXyChart
  else if diagram_type = "Block Diagram" then some promptBlockDiagram
  else if diagram_type = "Kanban" then some promptKanban
  else if diagram_type = "GitGraph" then some promptGitgraph
  else if diagram_type = "Mindmap" then some promptMindmap
  else none

/-! ## generate_mermaid_code (lines 490-560) -/

/-- Network calls a request can issue, in source order. -/
inductive NetCall where
  | scoreCall
  | refineCall
  | genCall
deriving DecidableEq, Repr

/-- Outcome of the final generation call.  netFail covers everything the
generic except clause of the source catches (httpx transport errors,
timeouts, the HTTPStatusError of raise_for_status, attribute errors on a
non-dict body); badJson is the JSONDecodeError of response.json, which
in Python is a ValueError and is therefore caught by the ValueError
clause; okChoices is a parsed body, each choice reduced to the content
string that choices-0-message-content-get evaluates to (absent keys give
the empty string). -/
inductive GenCallResult where
  | netFail (msg : String)
  | badJson (msg : String)
  | okChoices (choices : List String)
deriving DecidableEq, Repr

/-- The per-request completion-service replies. -/
structure Oracles where
  scoreReply : Option String
  refineReply : Option String
  genReply : GenCallResult
deriving DecidableEq, Repr

/-- Payloads of the ValueErrors the source raises or catches. -/
inductive VEPayload where
  | noApiKey
  | unsupportedType (diagram_type : String)
  | noChoices
  | emptyResponse
  | jsonDecode (msg : String)
  | extractFail (excerpt : String)
  | formatBrace
deriving DecidableEq, Repr

/-- Payloads of the two ConnectionError raises of the source: the
ValueError clause wraps its cause in the invalid-Mermaid message, the
generic clause wraps its cause in the API-failed message. -/
inductive CEPayload where
  | invalidMermaid (cause : VEPayload)
  | apiFailed (msg : String)
deriving DecidableEq, Repr

/-- The exception kinds generate_mermaid_code can raise. -/
inductive PyExc where
  | valueError (payload : VEPayload)
  | keyError (field : String)
  | connectionError (payload : CEPayload)
deriving DecidableEq, Repr

/-- The Python class of a modelled exception. -/
def excClass : PyExc → String
  | .valueError _ => "ValueError"
  | .keyError _ => "KeyError"
  | .connectionError _ => "ConnectionError"

/-- Step 2 of the source: the description sent to the final call is
the refinement result when the score is below 6, the stripped user
input otherwise. -/
def chooseDescription (score : Int) (user_input : String) (refineReply : Option String) : String :=
  if score < 6 then refine_prompt user_input refineReply else user_input

/-- The network calls issued by steps 1 and 2. -/
def initialCalls (score : Int) : List NetCall :=
  if score < 6 then [NetCall.scoreCall, NetCall.refineCall] else [NetCall.scoreCall]

/-- Step 3 prompt construction (lines 509-513): the template lookup
fails with a ValueError for an unsupported type; str.format of the
template can itself raise (modelled KeyError / ValueError). -/
def buildPrompt (diagram_type description : String) : Except PyExc String :=
  match PROMPTS diagram_type with
  | none => .error (.valueError (.unsupportedType diagram_type))
  | some base_prompt =>
    match pyFormat base_prompt description with
    | .ok p => .ok p
    | .error (.keyError f) => .error (.keyError f)
    | .error .braceError => .error (.valueError .formatBrace)

/-- generate_mermaid_code of the source, with an explicit trace of the
network calls issued.  The api-key check precedes everything; the
scoring call always runs next and the refinement call runs exactly when
the score is below 6; only then is the template looked up and formatted;
the final generation call is issued afterwards, its try block converting
every ValueError (including the extraction failure and the JSON decode
failure) into a ConnectionError wrapping the invalid-Mermaid message and
every other exception into a ConnectionError wrapping the API-failed
message.  The part of the function from the template lookup (line 509)
to the end is split out as generateAfterKey, taking the score and the
already chosen final description. -/
def generateAfterKey (diagram_type : String) (score : Int) (final_description : String)
    (genReply : GenCallResult) : Except PyExc String × List NetCall :=
  let calls := initialCalls score
  match buildPrompt diagram_type final_description with
  | .error e => (.error e, calls)
  | .ok _prompt =>
    let calls := calls ++ [NetCall.genCall]
    match genReply with
    | .netFail m => (.error (.connectionError (.apiFailed m)), calls)
    | .badJson m => (.error (.connectionError (.invalidMermaid (.jsonDecode m))), calls)
    | .okChoices choices =>
      match choices with
      | [] => (.error (.connectionError (.invalidMermaid .noChoices)), calls)
      | c :: _ =>
        let ai_response := pyStripS c
        if ai_response = "" then
          (.error (.connectionError (.invalidMermaid .emptyResponse)), calls)
        else
          match extract_mermaid_code ai_response with
          | .error ex => (.error (.connectionError (.invalidMermaid (.extractFail ex))), calls)
          | .ok mc => (.ok (sanitize_mermaid_code mc diagram_type), calls)

/-- generate_mermaid_code of the source: the api-key check, the scoring
call, the conditional refinement call, then generateAfterKey. -/
def generate_mermaid_code (api_key diagram_type description : String) (O : Oracles) :
    Except PyExc String × List NetCall :=
  if api_key = "" then (.error (.valueError .noApiKey), [])
  else
    let user_input := pyStripS description
    let score := score_prompt O.scoreReply
    generateAfterKey diagram_type score (chooseDescription score user_input O.refineReply)
      O.genReply

/-! ## Module-level state (for the statelessness claim)

The only module-level object of the source that the pipeline functions
could read or write is the PROMPTS dictionary (API_URL and MODEL_NAME
are constants used only inside request payloads).  The stateful wrappers
below thread that state explicitly; their bodies return it unchanged
because the bodies of extract_mermaid_code and sanitize_mermaid_code
(lines 452-486) contain no assignment to any module-level name, and the
Gantt task counter of sanitize_mermaid_code is a local variable
initialised to 1 on every call. -/

/-- The module-level mutable state: the PROMPTS mapping. -/
def ModuleState : Type := String → Option String

/-- extract_mermaid_code as a state transformer over the module state. -/
def extract_mermaid_code_st (st : ModuleState) (text : String) :
    Except String String × ModuleState :=
  (extract_mermaid_code text, st)

/-- sanitize_mermaid_code as a state transformer over the module state. -/
def sanitize_mermaid_code_st (st : ModuleState) (code diagram_type : String) :
    String × ModuleState :=
  (sanitize_mermaid_code code diagram_type, st)

/-- Absence of brace characters, as a Boolean. -/
def braceFreeB (l : List Char) : Bool :=
  l.all (fun c => !(c = '\x7b' || c = '\x7d'))

/-- A label piece with no double quote and no closing brace (side
condition of the quote-stripping statement). -/
def labelPlainB (l : List Char) : Bool :=
  l.all (fun c => !(isQuote c) && !(c = '\x7d'))

/-- A label piece with no question/exclamation mark and no closing brace
(side condition of the punctuation-stripping statement). -/
def puncPlainB (l : List Char) : Bool :=
  l.all (fun c => !(isPunc c) && !(c = '\x7d'))

/-! ## General lemmas about the end-stripping helpers -/

theorem head?_dropWhile_not (p : Char → Bool) :
    ∀ (l : List Char) (c : Char), (l.dropWhile p).head? = some c → p c = false := by
  intro l
  induction l with
  | nil => intro c h; simp [List.dropWhile] at h
  | cons a l ih =>
    intro c h
    by_cases ha : p a
    · rw [List.dropWhile_cons_of_pos ha] at h
      exact ih c h
    · rw [List.dropWhile_cons_of_neg ha] at h
      simp at h
      rw [← h]
      simpa using ha

theorem dropWhile_eq_self_of_head (p : Char → Bool) (l : List Char)
    (h : ∀ c, l.head? = some c → p c = false) : l.dropWhile p = l := by
  cases l with
  | nil => rfl
  | cons a l =>
    rw [List.dropWhile_cons_of_neg]
    simp [h a rfl]

theorem getLast?_dropWhile (p : Char → Bool) :
    ∀ (l : List Char), l.dropWhile p ≠ [] → (l.dropWhile p).getLast? = l.getLast? := by
  intro l
  induction l with
  | nil => intro h; simp [List.dropWhile] at h
  | cons a l ih =>
    intro h
    by_cases ha : p a
    · rw [List.dropWhile_cons_of_pos ha] at h ⊢
      rw [ih h]
      have hl : l ≠ [] := by
        intro he; rw [he] at h; simp [List.dropWhile] at h
      cases l with
      | nil => exact absurd rfl hl
      | cons b l' => rw [List.getLast?_cons_cons]
    · rw [List.dropWhile_cons_of_neg ha]

theorem stripEnds_last_not (p : Char → Bool) (l : List Char) (c : Char)
    (h : (stripEnds p l).reverse.head? = some c) : p c = false := by
  unfold stripEnds at h
  rw [List.reverse_reverse] at h
  exact head?_dropWhile_not p _ c h

theorem stripEnds_head_not (p : Char → Bool) (l : List Char) (c : Char)
    (h : (stripEnds p l).head? = some c) : p c = false := by
  unfold stripEnds at h
  rw [List.head?_reverse] at h
  have hne : (l.dropWhile p).reverse.dropWhile p ≠ [] := by
    intro he; rw [he] at h; simp at h
  rw [getLast?_dropWhile p _ hne, List.getLast?_reverse] at h
  exact head?_dropWhile_not p _ c h

theorem stripEnds_idem (p : Char → Bool) (l : List Char) :
    stripEnds p (stripEnds p l) = stripEnds p l := by
  have h1 : (stripEnds p l).dropWhile p = stripEnds p l :=
    dropWhile_eq_self_of_head p _ (fun c hc => stripEnds_head_not p l c hc)
  have h2 : (stripEnds p l).reverse.dropWhile p = (stripEnds p l).reverse :=
    dropWhile_eq_self_of_head p _ (fun c hc => stripEnds_last_not p l c hc)
  show ((((stripEnds p l).dropWhile p).reverse).dropWhile p).reverse = stripEnds p l
  rw [h1, h2, List.reverse_reverse]

theorem pyStrip_idem (l : List Char) : pyStrip (pyStrip l) = pyStrip l :=
  stripEnds_idem isPyWs l

/-! ## C3: totality and range of score_prompt -/

/-- C3: score_prompt is total and returns an integer in the range 0 to
10; it extracts the first integer token of the reply content and clamps
it by max 0 (min 10 n); when the completion call fails (oracle none) or
the content holds no integer token, it returns the default score 3. -/
theorem c3_score_prompt_total :
    ∀ reply : Option String,
      (0 ≤ score_prompt reply ∧ score_prompt reply ≤ 10) ∧
      (reply = none → score_prompt reply = 3) ∧
      (∀ s, reply = some s → firstNumber (pyStrip s.data) = none → score_prompt reply = 3) ∧
      (∀ s n, reply = some s → firstNumber (pyStrip s.data) = some n →
        score_prompt reply = max 0 (min 10 (n : Int))) := by
  intro reply
  cases reply with
  | none =>
    refine ⟨⟨by decide, by decide⟩, fun _ => rfl, ?_, ?_⟩
    · intro s h; simp at h
    · intro s n h; simp at h
  | some content =>
    have he : score_prompt (some content) =
        (match firstNumber (pyStrip content.data) with
         | some n => max 0 (min 10 (n : Int))
         | none => 3) := rfl
    refine ⟨?_, fun h => by simp at h, ?_, ?_⟩
    · rw [he]
      cases h : firstNumber (pyStrip content.data) with
      | none => exact ⟨by norm_num, by norm_num⟩
      | some n =>
        refine ⟨le_max_left (0 : Int) _, max_le (by norm_num) (min_le_left 10 (n : Int))⟩
    · intro s hs h
      cases hs
      rw [he, h]
    · intro s n hs h
      cases hs
      rw [he, h]

/-- C3 witness: concrete evaluations through the theorem. -/
theorem c3_witness :
    score_prompt (some "Score: 7 out of 10") = 7 ∧ score_prompt none = 3 := by
  constructor
  · rw [(c3_score_prompt_total (some "Score: 7 out of 10")).2.2.2 "Score: 7 out of 10" 7 rfl
      (by decide)]
    decide
  · exact (c3_score_prompt_total none).2.1 rfl

/-! ## C4: the fallback behaviour of refine_prompt -/

/-- C4 counterexample: when the completion call succeeds with an empty
content string, refine_prompt returns the empty string, so its result is
not always non-empty (and on this success path it does not return the
input either). -/
theorem c4_counterexample :
    refine_prompt "water cycle" (some "") = "" ∧ ("" : String) ≠ "water cycle" := by
  exact ⟨rfl, by decide⟩

/-- C4 amended: refine_prompt never raises; on any failure of the
refinement call it returns exactly the input description unchanged; on a
successful call it returns the reply content stripped of surrounding
whitespace and double-quote runs, a string with no leading or trailing
quote/whitespace character, which can be empty, so the result is not
always non-empty. -/
theorem c4_refine_fallback :
    ∀ (user_input : String) (reply : Option String),
      (reply = none → refine_prompt user_input reply = user_input) ∧
      (∀ r, reply = some r →
        refine_prompt user_input reply = (stripQuotesWs (pyStrip r.data)).asString ∧
        (∀ c, (refine_prompt user_input reply).data.head? = some c → isQuoteWs c = false) ∧
        (∀ c, (refine_prompt user_input reply).data.reverse.head? = some c →
          isQuoteWs c = false)) := by
  intro user_input reply
  constructor
  · intro h; cases h; rfl
  · intro r hr
    cases hr
    refine ⟨rfl, ?_, ?_⟩
    · intro c hc
      exact stripEnds_head_not isQuoteWs (pyStrip r.data) c hc
    · intro c hc
      exact stripEnds_last_not isQuoteWs (pyStrip r.data) c hc

/-- C4 witness: concrete evaluations through the theorem. -/
theorem c4_witness :
    refine_prompt "go" none = "go" ∧
    refine_prompt "go" (some " \"Refined text.\" ") = "Refined text." := by
  constructor
  · exact (c4_refine_fallback "go" none).1 rfl
  · rw [((c4_refine_fallback "go" (some " \"Refined text.\" ")).2 _ rfl).1]
    decide

/-! ## C8: the prompt builder crashes on the Class Diagram template -/

/-- C8 (code bug): the Class Diagram template contains an unescaped
single-brace block (class Animal, lines 60-63 of the source), so
str.format raises KeyError for the field read up to the first closing
brace and no prompt is ever built for that diagram type; the ER Diagram
template escapes its braces, showing the intended convention. -/
theorem c8_class_template_format_raises :
    buildPrompt "Class Diagram" "a login system" =
      .error (.keyError "\n        +String name\n        +makeSound()\n    ") := by
  rfl

/-! ## C10: statelessness and per-call counter restart -/

/-- C10: the helpers are deterministic and stateless.  Threaded through
the module state, each call leaves the state unchanged (the PROMPTS
dictionary is never written), the result depends only on the arguments,
a second call is unaffected by a first call, and the Gantt task counter
restarts at 1 on every invocation, so a repeat of the same call after an
arbitrary earlier call still numbers its first synthesized identifier
task1. -/
theorem c10_stateless :
    (∀ (st : ModuleState) (t : String), (extract_mermaid_code_st st t).2 = st) ∧
    (∀ (st : ModuleState) (c dt : String), (sanitize_mermaid_code_st st c dt).2 = st) ∧
    (∀ (st₁ st₂ : ModuleState) (t : String),
      (extract_mermaid_code_st st₁ t).1 = (extract_mermaid_code_st st₂ t).1) ∧
    (∀ (st : ModuleState) (c₁ dt₁ c₂ dt₂ : String),
      (sanitize_mermaid_code_st (sanitize_mermaid_code_st st c₁ dt₁).2 c₂ dt₂).1 =
        (sanitize_mermaid_code_st st c₂ dt₂).1) ∧
    (∀ st : ModuleState,
      (sanitize_mermaid_code_st
          (sanitize_mermaid_code_st st "Task A :2025-10-01, 5d" "Gantt").2
          "Task A :2025-10-01, 5d" "Gantt").1 = "Task A :task1, 2025-10-01, 5d") := by
  refine ⟨fun _ _ => rfl, fun _ _ _ => rfl, fun _ _ _ => rfl, fun _ _ _ _ _ => rfl, fun _ => ?_⟩
  show sanitize_mermaid_code "Task A :2025-10-01, 5d" "Gantt" = _
  rfl

/-! ## Lemmas about the pipeline -/

theorem extract_error_data (t e : String)
    (h : extract_mermaid_code t = .error e) :
    e = ((pyStrip t.data).take 200).asString := by
  simp only [extract_mermaid_code] at h
  cases h1 : searchFence (pyStrip t.data) with
  | some interior => rw [h1] at h; cases h
  | none =>
    rw [h1] at h
    cases h2 : firstValidSuffix (splitLines (pyStrip t.data)) with
    | some suffix => rw [h2] at h; cases h
    | none =>
      rw [h2] at h
      simpa using h.symm

theorem afterKey_trace_shape (dt : String) (score : Int) (fd : String) (g : GenCallResult) :
    (generateAfterKey dt score fd g).2 = initialCalls score ∨
    (generateAfterKey dt score fd g).2 = initialCalls score ++ [NetCall.genCall] := by
  cases hb : buildPrompt dt fd with
  | error e => left; simp [generateAfterKey, hb]
  | ok p =>
    cases g with
    | netFail m => right; simp [generateAfterKey, hb]
    | badJson m => right; simp [generateAfterKey, hb]
    | okChoices choices =>
      cases choices with
      | nil => right; simp [generateAfterKey, hb]
      | cons c rest =>
        by_cases hai : pyStripS c = ""
        · right; simp [generateAfterKey, hb, hai]
        · cases hex : extract_mermaid_code (pyStripS c) with
          | error ex => right; simp [generateAfterKey, hb, hai, hex]
          | ok mc => right; simp [generateAfterKey, hb, hai, hex]

theorem refineCall_mem_initialCalls (s : Int) :
    NetCall.refineCall ∈ initialCalls s ↔ s < 6 := by
  unfold initialCalls
  by_cases h : s < 6
  · simp [h]
  · simp [h]

/-! ## C1: order of the configuration checks -/

/-- C1 counterexample: with a nonempty key and an unsupported diagram
type, the configuration failure is raised only after the scoring network
call has been issued, so the trace of network calls is not empty. -/
theorem c1_counterexample :
    generate_mermaid_code "k" "Venn" "water cycle"
        (Oracles.mk (some "9") none (.okChoices [])) =
      (.error (.valueError (.unsupportedType "Venn")), [NetCall.scoreCall]) ∧
    ([NetCall.scoreCall] : List NetCall) ≠ [] := by
  exact ⟨rfl, by decide⟩

/-- C1 amended: an empty credential makes generate_mermaid_code fail
immediately with the missing-key ValueError, before any network call
(the trace is empty for every oracle); an unsupported diagram type makes
it fail with the unsupported-type ValueError before the generation
network call, but only after the scoring (and possibly refinement)
calls, so the generation call never appears in the trace. -/
theorem c1_config_error_order :
    (∀ (dt d : String) (O : Oracles),
      generate_mermaid_code "" dt d O = (.error (.valueError .noApiKey), [])) ∧
    (∀ (k dt d : String) (O : Oracles), k ≠ "" → PROMPTS dt = none →
      (generate_mermaid_code k dt d O).1 = .error (.valueError (.unsupportedType dt)) ∧
      NetCall.genCall ∉ (generate_mermaid_code k dt d O).2) := by
  constructor
  · intro dt d O
    simp [generate_mermaid_code]
  · intro k dt d O hk hdt
    have hb : buildPrompt dt
        (chooseDescription (score_prompt O.scoreReply) (pyStripS d) O.refineReply) =
        .error (.valueError (.unsupportedType dt)) := by
      unfold buildPrompt; rw [hdt]
    have hg : generate_mermaid_code k dt d O =
        (.error (.valueError (.unsupportedType dt)),
          initialCalls (score_prompt O.scoreReply)) := by
      simp [generate_mermaid_code, if_neg hk, generateAfterKey, hb]
    constructor
    · rw [hg]
    · have h2 : (generate_mermaid_code k dt d O).2 =
          initialCalls (score_prompt O.scoreReply) := by rw [hg]
      rw [h2]
      unfold initialCalls
      split <;> decide

/-- C1 witness: concrete discharge of the hypotheses of the amended
theorem. -/
theorem c1_witness :
    (("k" : String) ≠ "" ∧ PROMPTS "Venn" = none) ∧
    (generate_mermaid_code "k" "Venn" "d" (Oracles.mk none none (.okChoices []))).1 =
      .error (.valueError (.unsupportedType "Venn")) ∧
    NetCall.genCall ∉
      (generate_mermaid_code "k" "Venn" "d" (Oracles.mk none none (.okChoices []))).2 := by
  exact ⟨⟨by decide, rfl⟩, c1_config_error_order.2 "k" "Venn" "d" _ (by decide) rfl⟩

/-! ## C9: the refinement threshold -/

/-- C9: with a nonempty key, the refinement network call is issued if
and only if the quality score is strictly below 6; when the score is 6
or more, the result of the request does not depend on the refinement
oracle at all and the description used to build the final prompt is the
stripped user description itself. -/
theorem c9_refine_threshold :
    ∀ (k dt d : String) (O : Oracles), k ≠ "" →
      ((NetCall.refineCall ∈ (generate_mermaid_code k dt d O).2) ↔
        score_prompt O.scoreReply < 6) ∧
      (6 ≤ score_prompt O.scoreReply →
        (∀ r₁ r₂ : Option String,
          generate_mermaid_code k dt d (Oracles.mk O.scoreReply r₁ O.genReply) =
            generate_mermaid_code k dt d (Oracles.mk O.scoreReply r₂ O.genReply)) ∧
        chooseDescription (score_prompt O.scoreReply) (pyStripS d) O.refineReply =
          pyStripS d) := by
  intro k dt d O hk
  have hgen : generate_mermaid_code k dt d O =
      generateAfterKey dt (score_prompt O.scoreReply)
        (chooseDescription (score_prompt O.scoreReply) (pyStripS d) O.refineReply)
        O.genReply := by
    simp [generate_mermaid_code, if_neg hk]
  constructor
  · rw [hgen]
    rcases afterKey_trace_shape dt (score_prompt O.scoreReply)
        (chooseDescription (score_prompt O.scoreReply) (pyStripS d) O.refineReply)
        O.genReply with h | h <;> rw [h]
    · exact refineCall_mem_initialCalls _
    · rw [List.mem_append]
      constructor
      · rintro (hm | hm)
        · exact (refineCall_mem_initialCalls _).mp hm
        · simp at hm
      · intro h6
        exact Or.inl ((refineCall_mem_initialCalls _).mpr h6)
  · intro h6
    have hc : ∀ r : Option String,
        chooseDescription (score_prompt O.scoreReply) (pyStripS d) r = pyStripS d := by
      intro r
      unfold chooseDescription
      rw [if_neg (not_lt.mpr h6)]
    refine ⟨?_, hc O.refineReply⟩
    intro r₁ r₂
    have h1 : generate_mermaid_code k dt d (Oracles.mk O.scoreReply r₁ O.genReply) =
        generateAfterKey dt (score_prompt O.scoreReply) (pyStripS d) O.genReply := by
      simp [generate_mermaid_code, if_neg hk, hc]
    have h2 : generate_mermaid_code k dt d (Oracles.mk O.scoreReply r₂ O.genReply) =
        generateAfterKey dt (score_prompt O.scoreReply) (pyStripS d) O.genReply := by
      simp [generate_mermaid_code, if_neg hk, hc]
    rw [h1, h2]

/-- C9 witness: concrete discharge of the hypotheses. -/
theorem c9_witness :
    ¬ (NetCall.refineCall ∈
        (generate_mermaid_code "k" "Flowchart" "hi"
          (Oracles.mk (some "9") none (.okChoices []))).2) ∧
    chooseDescription (score_prompt (some "9")) (pyStripS "hi") none = pyStripS "hi" := by
  have h := c9_refine_threshold "k" "Flowchart" "hi"
    (Oracles.mk (some "9") none (.okChoices [])) (by decide)
  refine ⟨?_, (h.2 (by decide)).2⟩
  intro hm
  have h9 := h.1.mp hm
  revert h9
  decide

/-! ## C7: the kind of the extraction error -/

/-- C7 counterexample: an extraction failure and an empty-choices
failure of the generation call reach the caller wrapped by the very same
except clause, as the same ConnectionError exception class with the same
invalid-Mermaid message, so the extraction error is not an error kind
distinct from the kind used for generation-call failures. -/
theorem c7_counterexample :
    (generate_mermaid_code "k" "Flowchart" "hi"
        (Oracles.mk (some "9") none (.okChoices ["hello"]))).1 =
      .error (.connectionError (.invalidMermaid (.extractFail "hello"))) ∧
    (generate_mermaid_code "k" "Flowchart" "hi"
        (Oracles.mk (some "9") none (.okChoices []))).1 =
      .error (.connectionError (.invalidMermaid .noChoices)) ∧
    excClass (.connectionError (.invalidMermaid (.extractFail "hello"))) =
      excClass (.connectionError (.invalidMermaid .noChoices)) := by
  exact ⟨rfl, rfl, rfl⟩

/-- C7 amended: when the completion text has no recognizable diagram
payload, the pipeline fails with the extraction ValueError wrapping the
excerpt of the (stripped) raw text truncated to at most 200 characters,
re-raised by the ValueError except clause as a ConnectionError with the
invalid-Mermaid message; this is the same exception class (and the same
wrapping branch) as the absent/empty-choices and empty-content failures,
while network and status failures surface as a ConnectionError with the
API-failed message; no kind separates extraction errors from all
generation-call failures. -/
theorem c7_extract_error_kind :
    ∀ (k dt d : String) (s r : Option String) (c : String) (rest : List String),
      k ≠ "" →
      (buildPrompt dt (chooseDescription (score_prompt s) (pyStripS d) r)).isOk = true →
      pyStripS c ≠ "" →
      ∀ e, extract_mermaid_code (pyStripS c) = .error e →
        (generate_mermaid_code k dt d (Oracles.mk s r (.okChoices (c :: rest)))).1 =
          .error (.connectionError (.invalidMermaid (.extractFail e))) ∧
        e.data = (pyStrip c.data).take 200 ∧
        e.data.length ≤ 200 ∧
        excClass (.connectionError (.invalidMermaid (.extractFail e))) = "ConnectionError" ∧
        (generate_mermaid_code k dt d (Oracles.mk s r (.okChoices []))).1 =
          .error (.connectionError (.invalidMermaid .noChoices)) ∧
        (∀ m, (generate_mermaid_code k dt d (Oracles.mk s r (.netFail m))).1 =
          .error (.connectionError (.apiFailed m))) := by
  intro k dt d s r c rest hk hok hne e hex
  obtain ⟨p, hp⟩ : ∃ p, buildPrompt dt (chooseDescription (score_prompt s) (pyStripS d) r) =
      .ok p := by
    cases hb : buildPrompt dt (chooseDescription (score_prompt s) (pyStripS d) r) with
    | error x => rw [hb] at hok; cases hok
    | ok p => exact ⟨p, rfl⟩
  have hdata : e.data = (pyStrip c.data).take 200 := by
    have h1 := extract_error_data (pyStripS c) e hex
    have h2 : (pyStripS c).data = pyStrip c.data := rfl
    rw [h1, h2, pyStrip_idem]
    rfl
  refine ⟨?_, hdata, ?_, rfl, ?_, ?_⟩
  · simp [generate_mermaid_code, if_neg hk, generateAfterKey, hp, hne, hex]
  · rw [hdata]
    exact List.length_take_le 200 _
  · simp [generate_mermaid_code, if_neg hk, generateAfterKey, hp]
  · intro m
    simp [generate_mermaid_code, if_neg hk, generateAfterKey, hp]

/-- C7 witness: concrete discharge of the hypotheses. -/
theorem c7_witness :
    (generate_mermaid_code "k" "Flowchart" "topic"
        (Oracles.mk (some "9") none (.okChoices ["greetings"]))).1 =
      .error (.connectionError (.invalidMermaid (.extractFail "greetings"))) ∧
    ("greetings" : String).data.length ≤ 200 := by
  have h := c7_extract_error_kind "k" "Flowchart" "topic" (some "9") none "greetings" []
    (by decide) (by decide) (by decide) "greetings" rfl
  exact ⟨h.1, h.2.2.1⟩

/-! ## Scan characterization lemmas for the extractor -/

theorem searchFence_of_first :
    ∀ (i : Nat) (cs inter : List Char),
      fenceTryAt (cs.drop i) = some inter →
      (∀ j, j < i → fenceTryAt (cs.drop j) = none) →
      searchFence cs = some inter := by
  intro i
  induction i with
  | zero =>
    intro cs inter h _
    cases cs with
    | nil => rw [List.drop_nil] at h; exact Option.noConfusion h
    | cons c cs' =>
      rw [List.drop_zero] at h
      simp [searchFence, h]
  | succ i ih =>
    intro cs inter h hnone
    have h0 : fenceTryAt cs = none := by
      have := hnone 0 (Nat.succ_pos i)
      rwa [List.drop_zero] at this
    cases cs with
    | nil => rw [List.drop_nil] at h; exact Option.noConfusion h
    | cons c cs' =>
      have hsf : searchFence (c :: cs') = searchFence cs' := by
        simp [searchFence, h0]
      rw [hsf]
      apply ih cs' inter
      · rwa [List.drop_succ_cons] at h
      · intro j hj
        have := hnone (j + 1) (by omega)
        rwa [List.drop_succ_cons] at this

theorem searchFence_of_none :
    ∀ cs : List Char,
      (∀ j, j < cs.length → fenceTryAt (cs.drop j) = none) → searchFence cs = none := by
  intro cs
  induction cs with
  | nil => intro _; rfl
  | cons c cs' ih =>
    intro h
    have h0 : fenceTryAt (c :: cs') = none := by
      have := h 0 (by simp)
      rwa [List.drop_zero] at this
    have hsf : searchFence (c :: cs') = searchFence cs' := by
      simp [searchFence, h0]
    rw [hsf]
    apply ih
    intro j hj
    have := h (j + 1) (by simpa using Nat.succ_lt_succ hj)
    rwa [List.drop_succ_cons] at this

theorem firstValidSuffix_of_split :
    ∀ (pre : List (List Char)) (l : List Char) (suf : List (List Char)),
      (∀ x ∈ pre, startsValid x = false) → startsValid l = true →
      firstValidSuffix (pre ++ l :: suf) = some (l :: suf) := by
  intro pre
  induction pre with
  | nil =>
    intro l suf _ hl
    simp [firstValidSuffix, hl]
  | cons a pre' ih =>
    intro l suf hpre hl
    have ha : startsValid a = false := hpre a (by simp)
    have hstep : firstValidSuffix ((a :: pre') ++ l :: suf) =
        firstValidSuffix (pre' ++ l :: suf) := by
      simp [firstValidSuffix, ha]
    rw [hstep]
    exact ih l suf (fun x hx => hpre x (by simp [hx])) hl

theorem firstValidSuffix_of_none :
    ∀ ls : List (List Char),
      (∀ x ∈ ls, startsValid x = false) → firstValidSuffix ls = none := by
  intro ls
  induction ls with
  | nil => intro _; rfl
  | cons a ls' ih =>
    intro h
    have ha : startsValid a = false := h a (by simp)
    have hstep : firstValidSuffix (a :: ls') = firstValidSuffix ls' := by
      simp [firstValidSuffix, ha]
    rw [hstep]
    exact ih (fun x hx => h x (by simp [hx]))

/-! ## C2: priority order of the extraction rules -/

/-- C2 counterexample: a fenced block tagged with a language hint other
than mermaid is not recognized; the extractor raises its ValueError
instead of returning the interior of the block. -/
theorem c2_counterexample :
    extract_mermaid_code "\x60\x60\x60python\nX\n\x60\x60\x60" =
      .error "\x60\x60\x60python\nX\n\x60\x60\x60" := by
  rfl

/-- C2 amended: on the stripped text, the first position where the fence
pattern matches (opener three backticks, optionally tagged with the one
supported hint mermaid, directly followed by a newline, with a later
closing triple backtick) wins, and the extractor returns the interior up
to the first closing fence, trimmed; when no position matches the fence
pattern, the extractor returns, trimmed, the suffix of the text from the
first line whose stripped content starts with one of the 17 enumerated
keyword strings (16 dialects, the flowchart dialect having the two
headers flowchart and graph); when neither rule applies it fails with
the excerpt truncated to 200 characters. -/
theorem c2_extract_priority :
    ∀ t : String,
      (∀ (i : Nat) (inter : List Char),
        fenceTryAt ((pyStrip t.data).drop i) = some inter →
        (∀ j, j < i → fenceTryAt ((pyStrip t.data).drop j) = none) →
        extract_mermaid_code t = .ok (pyStrip inter).asString) ∧
      ((∀ j, j < (pyStrip t.data).length → fenceTryAt ((pyStrip t.data).drop j) = none) →
        (∀ (pre : List (List Char)) (l : List Char) (suf : List (List Char)),
          splitLines (pyStrip t.data) = pre ++ l :: suf →
          (∀ x ∈ pre, startsValid x = false) → startsValid l = true →
          extract_mermaid_code t = .ok (pyStrip (joinLines (l :: suf))).asString) ∧
        ((∀ x ∈ splitLines (pyStrip t.data), startsValid x = false) →
          extract_mermaid_code t = .error ((pyStrip t.data).take 200).asString)) := by
  intro t
  constructor
  · intro i inter h hnone
    have hs := searchFence_of_first i (pyStrip t.data) inter h hnone
    simp [extract_mermaid_code, hs]
  · intro hfence
    have hs := searchFence_of_none (pyStrip t.data) hfence
    constructor
    · intro pre l suf hsplit hpre hl
      have hv := firstValidSuffix_of_split pre l suf hpre hl
      rw [← hsplit] at hv
      simp [extract_mermaid_code, hs, hv]
    · intro hall
      have hv := firstValidSuffix_of_none (splitLines (pyStrip t.data)) hall
      simp [extract_mermaid_code, hs, hv]

/-- C2 witness: concrete discharge of the hypotheses of both rules. -/
theorem c2_witness :
    extract_mermaid_code "prose first\npie showData\n A : 1" =
      .ok "pie showData\n A : 1" ∧
    extract_mermaid_code "\x60\x60\x60mermaid\npie\n\x60\x60\x60" = .ok "pie" := by
  constructor
  · have h := ((c2_extract_priority "prose first\npie showData\n A : 1").2 (by decide)).1
      ["prose first".data] "pie showData".data [" A : 1".data]
      (by decide) (by decide) (by decide)
    rw [h]
    rfl
  · have h := (c2_extract_priority "\x60\x60\x60mermaid\npie\n\x60\x60\x60").1 0
      "pie\n".data (by decide) (by omega)
    rw [h]
    rfl

/-! ## C6: the Gantt task-identifier counter -/

theorem ganttAux_split :
    ∀ (ls₁ : List (List Char)) (n : Nat) (l : List Char) (ls₂ : List (List Char)),
      ganttAux n (ls₁ ++ l :: ls₂) =
        ganttAux n ls₁ ++
          (if ganttQual l then ganttSubLine (n + ls₁.countP ganttQual) l else l) ::
            ganttAux (n + ls₁.countP ganttQual + if ganttQual l then 1 else 0) ls₂ := by
  intro ls₁
  induction ls₁ with
  | nil =>
    intro n l ls₂
    by_cases h : ganttQual l <;> simp [ganttAux, h]
  | cons a ls₁' ih =>
    intro n l ls₂
    by_cases ha : ganttQual a
    · have hL : ganttAux n ((a :: ls₁') ++ l :: ls₂) =
          ganttSubLine n a :: ganttAux (n + 1) (ls₁' ++ l :: ls₂) := by
        simp [ganttAux, ha]
      have hR : ganttAux n (a :: ls₁') = ganttSubLine n a :: ganttAux (n + 1) ls₁' := by
        simp [ganttAux, ha]
      rw [hL, ih (n + 1) l ls₂, hR]
      have e1 : n + 1 + ls₁'.countP ganttQual = n + (a :: ls₁').countP ganttQual := by
        simp [List.countP_cons, ha]
        omega
      rw [e1, List.cons_append]
    · have hL : ganttAux n ((a :: ls₁') ++ l :: ls₂) =
          a :: ganttAux n (ls₁' ++ l :: ls₂) := by
        simp [ganttAux, ha]
      have hR : ganttAux n (a :: ls₁') = a :: ganttAux n ls₁' := by
        simp [ganttAux, ha]
      rw [hL, ih n l ls₂, hR]
      have e1 : n + ls₁'.countP ganttQual = n + (a :: ls₁').countP ganttQual := by
        simp [List.countP_cons, ha]
      rw [e1, List.cons_append]

/-- C6 counterexample: the line a-space-colon-space-xyz contains a colon,
is no section header and has no task-identifier token, yet no identifier
is inserted into it (the substitution finds no date, duration or
keyword token), while the counter still increments, so the next
qualifying line receives task2 and no line receives task1. -/
theorem c6_counterexample :
    sanitize_mermaid_code "a : xyz\nTask A :2025-10-01, 5d" "Gantt" =
      "a : xyz\nTask A :task2, 2025-10-01, 5d" ∧
    hasSub "task1".data ("a : xyz\nTask A :task2, 2025-10-01, 5d" : String).data = false := by
  exact ⟨rfl, by decide⟩

/-- C6 amended: in the Gantt pass, the k-th line satisfying the
qualifying condition (a colon, no section substring, no explicit
task-identifier token) is rewritten with the counter value k (counting
qualifying lines from 1 at every invocation), and the rewrite inserts
task-k directly after a colon followed by a date/duration run or an
after/des/active reference (whose non-comma body may, by whitespace
backtracking, consist of trailing whitespace alone), dropping the
whitespace after the colon; a qualifying line with no such token is
left unchanged although it still advances the counter.  In particular a
lone task line gains task1, a second qualifying task line gains task2,
and an interior line whose after-keyword is followed only by two
trailing spaces still gains an identifier. -/
theorem c6_gantt_task_ids :
    (∀ (ls₁ : List (List Char)) (l : List Char) (ls₂ : List (List Char)),
      ganttAux 1 (ls₁ ++ l :: ls₂) =
        ganttAux 1 ls₁ ++
          (if ganttQual l then ganttSubLine (1 + ls₁.countP ganttQual) l else l) ::
            ganttAux (1 + ls₁.countP ganttQual + if ganttQual l then 1 else 0) ls₂) ∧
    sanitize_mermaid_code "Task A :2025-10-01, 5d" "Gantt" =
      "Task A :task1, 2025-10-01, 5d" ∧
    sanitize_mermaid_code "Task A :2025-10-01, 5d\nTask B :after task1, 3d" "Gantt" =
      "Task A :task1, 2025-10-01, 5d\nTask B :task2, after task1, 3d" ∧
    sanitize_mermaid_code "Task X : after  \nend" "Gantt" =
      "Task X :task1, after  \nend" := by
  exact ⟨fun ls₁ l ls₂ => ganttAux_split ls₁ 1 l ls₂, rfl, rfl, rfl⟩

/-! ## Lemmas for the flowchart sanitizer rewrites -/

theorem braceContent_append :
    ∀ (t s : List Char), braceFreeB t = true →
      braceContent (t ++ '\x7d' :: s) = some (t, s) := by
  intro t
  induction t with
  | nil =>
    intro s _
    show braceContent ('\x7d' :: s) = some ([], s)
    simp [braceContent]
  | cons c t' ih =>
    intro s h
    rw [braceFreeB, List.all_cons] at h
    have hc := Bool.and_elim_left h
    have ht' : braceFreeB t' = true := Bool.and_elim_right h
    have hc1 : ¬(c = '\x7b') := by
      intro he; rw [he] at hc; simp at hc
    have hc2 : ¬(c = '\x7d') := by
      intro he; rw [he] at hc; simp at hc
    show braceContent (c :: (t' ++ '\x7d' :: s)) = some (c :: t', s)
    rw [braceContent, if_neg hc1, if_neg hc2, ih s ht']
    rfl

theorem braceContent_some_eq :
    ∀ (cs t s : List Char), braceContent cs = some (t, s) → cs = t ++ '\x7d' :: s := by
  intro cs
  induction cs with
  | nil => intro t s h; exact Option.noConfusion h
  | cons c cs' ih =>
    intro t s h
    rw [braceContent] at h
    by_cases h1 : c = '\x7b'
    · rw [if_pos h1] at h; exact Option.noConfusion h
    · rw [if_neg h1] at h
      by_cases h2 : c = '\x7d'
      · subst h2
        rw [if_pos rfl] at h
        have he : t = [] ∧ cs' = s := by
          simpa using h
        rw [he.1, he.2]
        rfl
      · rw [if_neg h2] at h
        cases hb : braceContent cs' with
        | none => rw [hb] at h; exact Option.noConfusion h
        | some p =>
          obtain ⟨t0, s0⟩ := p
          rw [hb] at h
          have he : t = c :: t0 ∧ s = s0 := by
            have := h
            simp at this
            exact ⟨this.1.symm, this.2.symm⟩
          rw [he.1, he.2, ih t0 s0 hb]
          rfl

theorem sub1TryAt_some_len :
    ∀ (cs t s : List Char), sub1TryAt cs = some (t, s) → s.length < cs.length := by
  intro cs t s h
  rw [sub1TryAt] at h
  cases hb : braceContent cs with
  | none => rw [hb] at h; exact Option.noConfusion h
  | some p =>
    obtain ⟨t0, s0⟩ := p
    rw [hb, Option.some_bind] at h
    by_cases hg : t0 ≠ [] ∧ s0.head? ≠ some '\x7d'
    · rw [if_pos hg] at h
      have he : t = t0 ∧ s = s0 := by
        have := h
        simp at this
        exact ⟨this.1.symm, this.2.symm⟩
      rw [braceContent_some_eq cs t0 s0 hb, he.2]
      simp
      omega
    · rw [if_neg hg] at h; exact Option.noConfusion h

theorem sub1TryAt_eval :
    ∀ (t s : List Char), t ≠ [] → braceFreeB t = true → s.head? ≠ some '\x7d' →
      sub1TryAt (t ++ '\x7d' :: s) = some (t, s) := by
  intro t s ht hb hs
  rw [sub1TryAt, braceContent_append t s hb, Option.some_bind, if_pos ⟨ht, hs⟩]

theorem flowSub1Go_fuel :
    ∀ (f₁ f₂ : Nat) (b : Bool) (cs : List Char),
      cs.length ≤ f₁ → cs.length ≤ f₂ → flowSub1Go f₁ b cs = flowSub1Go f₂ b cs := by
  intro f₁
  induction f₁ with
  | zero =>
    intro f₂ b cs h1 _
    have h0 : cs = [] := List.length_eq_zero.mp (Nat.le_zero.mp h1)
    subst h0
    cases f₂ <;> rfl
  | succ f₁' ih =>
    intro f₂ b cs h1 h2
    cases cs with
    | nil => cases f₂ <;> rfl
    | cons c cs' =>
      cases f₂ with
      | zero => simp at h2
      | succ f₂' =>
        have hl1 : cs'.length ≤ f₁' := by simp at h1; omega
        have hl2 : cs'.length ≤ f₂' := by simp at h2; omega
        simp only [flowSub1Go]
        by_cases hc : c = '\x7b' ∧ b = false
        · rw [if_pos hc, if_pos hc]
          cases hm : sub1TryAt cs' with
          | none => simp only [hm]; rw [ih f₂' true cs' hl1 hl2]
          | some p =>
            obtain ⟨t, s⟩ := p
            have hs : s.length < cs'.length := sub1TryAt_some_len cs' t s hm
            simp only [hm]
            rw [ih f₂' false s (by omega) (by omega)]
        · rw [if_neg hc, if_neg hc, ih f₂' _ cs' hl1 hl2]

theorem flowSub1Go_skip :
    ∀ (p : List Char) (cs : List Char) (f : Nat), braceFreeB p = true →
      (p ++ cs).length ≤ f →
      flowSub1Go f false (p ++ cs) = p ++ flowSub1Go cs.length false cs := by
  intro p
  induction p with
  | nil =>
    intro cs f _ hf
    simp only [List.nil_append] at hf ⊢
    exact flowSub1Go_fuel f cs.length false cs hf (Nat.le_refl _)
  | cons a p' ih =>
    intro cs f hb hf
    rw [braceFreeB, List.all_cons] at hb
    have ha := Bool.and_elim_left hb
    have hp' : braceFreeB p' = true := Bool.and_elim_right hb
    have ha1 : ¬(a = '\x7b') := by
      intro he; rw [he] at ha; simp at ha
    cases f with
    | zero => simp at hf
    | succ f' =>
      have hf' : (p' ++ cs).length ≤ f' := by simp at hf ⊢; omega
      show flowSub1Go (f' + 1) false (a :: (p' ++ cs)) = (a :: p') ++ _
      simp only [flowSub1Go]
      rw [if_neg (by intro hx; exact ha1 hx.1)]
      have hd : decide (a = '\x7b') = false := by
        simp [ha1]
      rw [hd, ih cs f' hp' hf']
      rfl

theorem flowSub1Go_match :
    ∀ (t s : List Char) (f : Nat), t ≠ [] → braceFreeB t = true →
      s.head? ≠ some '\x7d' → ('\x7b' :: (t ++ '\x7d' :: s)).length ≤ f →
      flowSub1Go f false ('\x7b' :: (t ++ '\x7d' :: s)) =
        '\x7b' :: '\x7b' :: (t ++ '\x7d' :: '\x7d' :: flowSub1Go s.length false s) := by
  intro t s f ht hb hs hf
  cases f with
  | zero => simp at hf
  | succ f' =>
    have hsf : s.length ≤ f' := by simp at hf; omega
    simp only [flowSub1Go]
    rw [if_pos ⟨by trivial, by trivial⟩]
    simp only [sub1TryAt_eval t s ht hb hs]
    rw [flowSub1Go_fuel f' s.length false s hsf (Nat.le_refl _)]

theorem innerToRBrace_append :
    ∀ (inter s : List Char), inter.all (fun c => !(c = '\x7d')) = true →
      innerToRBrace (inter ++ '\x7d' :: '\x7d' :: s) = some (inter, s) := by
  intro inter
  induction inter with
  | nil =>
    intro s _
    show innerToRBrace ('\x7d' :: '\x7d' :: s) = some ([], s)
    simp [innerToRBrace]
  | cons c inter' ih =>
    intro s h
    rw [List.all_cons] at h
    have hc := Bool.and_elim_left h
    have hi : inter'.all (fun c => !(c = '\x7d')) = true := Bool.and_elim_right h
    have hc2 : ¬(c = '\x7d') := by
      intro he; rw [he] at hc; simp at hc
    show innerToRBrace (c :: (inter' ++ '\x7d' :: '\x7d' :: s)) = some (c :: inter', s)
    rw [innerToRBrace.eq_def]
    simp only []
    rw [if_neg hc2, ih s hi]
    rfl

theorem innerToRBrace_some_eq :
    ∀ (cs inter s : List Char), innerToRBrace cs = some (inter, s) →
      cs = inter ++ '\x7d' :: '\x7d' :: s := by
  intro cs
  induction cs with
  | nil => intro inter s h; exact Option.noConfusion h
  | cons c cs' ih =>
    intro inter s h
    have h0 : (if c = '\x7d' then
        (match cs' with
          | [] => (none : Option (List Char × List Char))
          | c' :: s => if c' = '\x7d' then some ([], s) else none)
        else Option.map (fun p => (c :: p.1, p.2)) (innerToRBrace cs')) = some (inter, s) := h
    by_cases h1 : c = '\x7d'
    · rw [if_pos h1] at h0
      cases cs' with
      | nil => exact Option.noConfusion h0
      | cons c' s' =>
        have h' : (if c' = '\x7d' then some (([] : List Char), s') else none) =
            some (inter, s) := h0
        by_cases h2 : c' = '\x7d'
        · rw [if_pos h2] at h'
          injection h' with h''
          injection h'' with he1 he2
          rw [h1, h2, ← he1, ← he2]
          rfl
        · rw [if_neg h2] at h'; exact Option.noConfusion h'
    · rw [if_neg h1] at h0
      cases hb : innerToRBrace cs' with
      | none => rw [hb] at h0; exact Option.noConfusion h0
      | some p =>
        obtain ⟨i0, s0⟩ := p
        rw [hb] at h0
        have h' : some (c :: i0, s0) = some (inter, s) := h0
        injection h' with h''
        injection h'' with he1 he2
        rw [← he1, ← he2, ih i0 s0 hb]
        rfl

theorem removeFirstSuch_append_none (p : Char → Bool) :
    ∀ (a b : List Char), a.all (fun c => !(p c)) = true →
      removeFirstSuch p (a ++ b) = a ++ removeFirstSuch p b := by
  intro a
  induction a with
  | nil => intro b _; rfl
  | cons c a' ih =>
    intro b h
    rw [List.all_cons] at h
    have hc := Bool.and_elim_left h
    have ha' := Bool.and_elim_right h
    have hcf : ¬(p c = true) := by
      intro he; rw [he] at hc; simp at hc
    show removeFirstSuch p (c :: (a' ++ b)) = c :: (a' ++ removeFirstSuch p b)
    rw [removeFirstSuch, if_neg hcf, ih b ha']

theorem removeFirstSuch_cons_pos (p : Char → Bool) (c : Char) (b : List Char)
    (h : p c = true) : removeFirstSuch p (c :: b) = b := by
  rw [removeFirstSuch, if_pos h]

theorem all_imp_of_all (p q : Char → Bool) (l : List Char) (h : l.all p = true)
    (himp : ∀ c, p c = true → q c = true) : l.all q = true := by
  rw [List.all_eq_true] at h ⊢
  intro x hx
  exact himp x (h x hx)

theorem all_reverse_of_all (p : Char → Bool) (l : List Char) (h : l.all p = true) :
    l.reverse.all p = true := by
  rw [List.all_eq_true] at h ⊢
  intro x hx
  exact h x (List.mem_reverse.mp hx)

theorem labelPlain_noQuote (l : List Char) (h : labelPlainB l = true) :
    l.all (fun c => !(isQuote c)) = true :=
  all_imp_of_all _ _ l h (fun c hc => by
    simp at hc
    simp [hc.1])

theorem labelPlain_noRB (l : List Char) (h : labelPlainB l = true) :
    l.all (fun c => !(c = '\x7d')) = true :=
  all_imp_of_all _ _ l h (fun c hc => by
    simp at hc
    simp [hc.2])

theorem puncPlain_noPunc (l : List Char) (h : puncPlainB l = true) :
    l.all (fun c => !(isPunc c)) = true :=
  all_imp_of_all _ _ l h (fun c hc => by
    simp at hc
    simp [hc.1])

theorem puncPlain_noRB (l : List Char) (h : puncPlainB l = true) :
    l.all (fun c => !(c = '\x7d')) = true :=
  all_imp_of_all _ _ l h (fun c hc => by
    simp at hc
    simp [hc.2])

theorem countP_zero_of_all_not (p : Char → Bool) (l : List Char)
    (h : l.all (fun c => !(p c)) = true) : l.countP p = 0 := by
  rw [List.countP_eq_zero]
  rw [List.all_eq_true] at h
  intro a ha
  have := h a ha
  simp at this
  simp [this]

theorem reverse_mid_two (u v w : List Char) (a b : Char) :
    (u ++ a :: (v ++ b :: w)).reverse = w.reverse ++ b :: (v.reverse ++ a :: u.reverse) := by
  simp

theorem reverse_mid_one (u w : List Char) (a : Char) :
    (u ++ a :: w).reverse = w.reverse ++ a :: u.reverse := by
  simp

theorem removeTwoQuotes (u v w : List Char)
    (_hu : u.all (fun c => !(isQuote c)) = true)
    (hv : v.all (fun c => !(isQuote c)) = true)
    (hw : w.all (fun c => !(isQuote c)) = true) :
    (removeFirstSuch isQuote (removeFirstSuch isQuote
        (u ++ '"' :: (v ++ '"' :: w)).reverse)).reverse = u ++ (v ++ w) := by
  have hwr := all_reverse_of_all _ w hw
  have hvr := all_reverse_of_all _ v hv
  have s1 : removeFirstSuch isQuote ((u ++ '"' :: (v ++ '"' :: w)).reverse) =
      w.reverse ++ (v.reverse ++ '"' :: u.reverse) := by
    rw [reverse_mid_two u v w '"' '"',
      removeFirstSuch_append_none isQuote w.reverse _ hwr,
      removeFirstSuch_cons_pos isQuote '"' _ (by decide)]
  have s2 : removeFirstSuch isQuote (w.reverse ++ (v.reverse ++ '"' :: u.reverse)) =
      w.reverse ++ (v.reverse ++ u.reverse) := by
    rw [removeFirstSuch_append_none isQuote w.reverse _ hwr,
      removeFirstSuch_append_none isQuote v.reverse _ hvr,
      removeFirstSuch_cons_pos isQuote '"' _ (by decide)]
  rw [s1, s2]
  simp

theorem removeOnePunc (u w : List Char) (c : Char) (hc : isPunc c = true)
    (_hu : u.all (fun c => !(isPunc c)) = true)
    (hw : w.all (fun c => !(isPunc c)) = true) :
    (removeFirstSuch isPunc (u ++ c :: w).reverse).reverse = u ++ w := by
  have hwr := all_reverse_of_all _ w hw
  rw [reverse_mid_one u w c,
    removeFirstSuch_append_none isPunc w.reverse _ hwr,
    removeFirstSuch_cons_pos isPunc c _ hc]
  simp

theorem countQuotes_two (u v w : List Char)
    (hu : u.all (fun c => !(isQuote c)) = true)
    (hv : v.all (fun c => !(isQuote c)) = true)
    (hw : w.all (fun c => !(isQuote c)) = true) :
    countQuotes (u ++ '"' :: (v ++ '"' :: w)) = 2 := by
  have h1 := countP_zero_of_all_not isQuote u hu
  have h2 := countP_zero_of_all_not isQuote v hv
  have h3 := countP_zero_of_all_not isQuote w hw
  rw [countQuotes, List.countP_append, List.countP_cons, List.countP_append, List.countP_cons]
  rw [h1, h2, h3]
  decide

theorem sub2TryAt_eval (u v w s : List Char)
    (hu : labelPlainB u = true) (hv : labelPlainB v = true) (hw : labelPlainB w = true) :
    sub2TryAt ((u ++ '"' :: (v ++ '"' :: w)) ++ '\x7d' :: '\x7d' :: s) =
      some (u ++ (v ++ w), s) := by
  have hrb : (u ++ '"' :: (v ++ '"' :: w)).all (fun c => !(c = '\x7d')) = true := by
    simp only [List.all_append, List.all_cons]
    rw [labelPlain_noRB u hu, labelPlain_noRB v hv, labelPlain_noRB w hw]
    decide
  rw [sub2TryAt, innerToRBrace_append _ s hrb, Option.some_bind]
  have hc : countQuotes (u ++ '"' :: (v ++ '"' :: w)) = 2 :=
    countQuotes_two u v w (labelPlain_noQuote u hu) (labelPlain_noQuote v hv)
      (labelPlain_noQuote w hw)
  rw [hc, if_pos (by omega)]
  rw [removeTwoQuotes u v w (labelPlain_noQuote u hu) (labelPlain_noQuote v hv)
      (labelPlain_noQuote w hw)]

theorem sub3TryAt_eval (u w s : List Char) (c : Char) (hc : isPunc c = true)
    (hu : puncPlainB u = true) (hw : puncPlainB w = true) :
    sub3TryAt ((u ++ c :: w) ++ '\x7d' :: '\x7d' :: s) = some (u ++ w, s) := by
  have hcrb : ¬(c = '\x7d') := by
    intro he
    rw [he] at hc
    simp [isPunc] at hc
  have hrb : (u ++ c :: w).all (fun x => !(x = '\x7d')) = true := by
    simp only [List.all_append, List.all_cons]
    rw [puncPlain_noRB u hu, puncPlain_noRB w hw]
    simp [hcrb]
  rw [sub3TryAt, innerToRBrace_append _ s hrb, Option.some_bind]
  have hany : (u ++ c :: w).any isPunc = true := by
    simp only [List.any_append, List.any_cons]
    rw [hc]
    simp
  rw [hany, if_pos rfl]
  rw [removeOnePunc u w c hc (puncPlain_noPunc u hu) (puncPlain_noPunc w hw)]

theorem sub2TryAt_some_len :
    ∀ (cs inter s : List Char), sub2TryAt cs = some (inter, s) → s.length < cs.length := by
  intro cs inter s h
  rw [sub2TryAt] at h
  cases hb : innerToRBrace cs with
  | none => rw [hb] at h; exact Option.noConfusion h
  | some p =>
    obtain ⟨i0, s0⟩ := p
    rw [hb, Option.some_bind] at h
    by_cases hq : 2 ≤ countQuotes i0
    · rw [if_pos hq] at h
      injection h with h'
      injection h' with he1 he2
      rw [innerToRBrace_some_eq cs i0 s0 hb, ← he2]
      simp
      omega
    · rw [if_neg hq] at h; exact Option.noConfusion h

theorem sub3TryAt_some_len :
    ∀ (cs inter s : List Char), sub3TryAt cs = some (inter, s) → s.length < cs.length := by
  intro cs inter s h
  rw [sub3TryAt] at h
  cases hb : innerToRBrace cs with
  | none => rw [hb] at h; exact Option.noConfusion h
  | some p =>
    obtain ⟨i0, s0⟩ := p
    rw [hb, Option.some_bind] at h
    by_cases hq : i0.any isPunc = true
    · rw [if_pos hq] at h
      injection h with h'
      injection h' with he1 he2
      rw [innerToRBrace_some_eq cs i0 s0 hb, ← he2]
      simp
      omega
    · rw [if_neg hq] at h; exact Option.noConfusion h

theorem flowSub2Go_fuel :
    ∀ (f₁ f₂ : Nat) (cs : List Char),
      cs.length ≤ f₁ → cs.length ≤ f₂ → flowSub2Go f₁ cs = flowSub2Go f₂ cs := by
  intro f₁
  induction f₁ with
  | zero =>
    intro f₂ cs h1 _
    have h0 : cs = [] := List.length_eq_zero.mp (Nat.le_zero.mp h1)
    subst h0
    cases f₂ <;> rfl
  | succ f₁' ih =>
    intro f₂ cs h1 h2
    cases cs with
    | nil => cases f₂ <;> rfl
    | cons c cs' =>
      cases f₂ with
      | zero => simp at h2
      | succ f₂' =>
        have hl1 : cs'.length ≤ f₁' := by simp at h1; omega
        have hl2 : cs'.length ≤ f₂' := by simp at h2; omega
        cases cs' with
        | nil =>
          show c :: flowSub2Go f₁' [] = c :: flowSub2Go f₂' []
          rw [ih f₂' [] (by simp) (by simp)]
        | cons c2 rest =>
          simp only [flowSub2Go]
          by_cases hc : c = '\x7b' ∧ c2 = '\x7b'
          · rw [if_pos hc, if_pos hc]
            cases hm : sub2TryAt rest with
            | none => simp only [hm]; rw [ih f₂' (c2 :: rest) hl1 hl2]
            | some p =>
              obtain ⟨inter, s⟩ := p
              have hs := sub2TryAt_some_len rest inter s hm
              simp only [hm]
              have hrl1 : rest.length + 1 ≤ f₁' := by simpa using hl1
              have hrl2 : rest.length + 1 ≤ f₂' := by simpa using hl2
              rw [ih f₂' s (by omega) (by omega)]
          · rw [if_neg hc, if_neg hc, ih f₂' (c2 :: rest) hl1 hl2]

theorem flowSub3Go_fuel :
    ∀ (f₁ f₂ : Nat) (cs : List Char),
      cs.length ≤ f₁ → cs.length ≤ f₂ → flowSub3Go f₁ cs = flowSub3Go f₂ cs := by
  intro f₁
  induction f₁ with
  | zero =>
    intro f₂ cs h1 _
    have h0 : cs = [] := List.length_eq_zero.mp (Nat.le_zero.mp h1)
    subst h0
    cases f₂ <;> rfl
  | succ f₁' ih =>
    intro f₂ cs h1 h2
    cases cs with
    | nil => cases f₂ <;> rfl
    | cons c cs' =>
      cases f₂ with
      | zero => simp at h2
      | succ f₂' =>
        have hl1 : cs'.length ≤ f₁' := by simp at h1; omega
        have hl2 : cs'.length ≤ f₂' := by simp at h2; omega
        cases cs' with
        | nil =>
          show c :: flowSub3Go f₁' [] = c :: flowSub3Go f₂' []
          rw [ih f₂' [] (by simp) (by simp)]
        | cons c2 rest =>
          simp only [flowSub3Go]
          by_cases hc : c = '\x7b' ∧ c2 = '\x7b'
          · rw [if_pos hc, if_pos hc]
            cases hm : sub3TryAt rest with
            | none => simp only [hm]; rw [ih f₂' (c2 :: rest) hl1 hl2]
            | some p =>
              obtain ⟨inter, s⟩ := p
              have hs := sub3TryAt_some_len rest inter s hm
              simp only [hm]
              have hrl1 : rest.length + 1 ≤ f₁' := by simpa using hl1
              have hrl2 : rest.length + 1 ≤ f₂' := by simpa using hl2
              rw [ih f₂' s (by omega) (by omega)]
          · rw [if_neg hc, if_neg hc, ih f₂' (c2 :: rest) hl1 hl2]

theorem flowSub2Go_match :
    ∀ (rest inter s : List Char) (f : Nat), sub2TryAt rest = some (inter, s) →
      ('\x7b' :: '\x7b' :: rest).length ≤ f →
      flowSub2Go f ('\x7b' :: '\x7b' :: rest) =
        '\x7b' :: '\x7b' :: (inter ++ '\x7d' :: '\x7d' :: flowSub2Go s.length s) := by
  intro rest inter s f hm hf
  cases f with
  | zero => simp at hf
  | succ f' =>
    have hs := sub2TryAt_some_len rest inter s hm
    have hsf : s.length ≤ f' := by simp at hf; omega
    simp only [flowSub2Go]
    rw [if_pos ⟨by trivial, by trivial⟩]
    simp only [hm]
    rw [flowSub2Go_fuel f' s.length s hsf (Nat.le_refl _)]

theorem flowSub3Go_match :
    ∀ (rest inter s : List Char) (f : Nat), sub3TryAt rest = some (inter, s) →
      ('\x7b' :: '\x7b' :: rest).length ≤ f →
      flowSub3Go f ('\x7b' :: '\x7b' :: rest) =
        '\x7b' :: '\x7b' :: (inter ++ '\x7d' :: '\x7d' :: flowSub3Go s.length s) := by
  intro rest inter s f hm hf
  cases f with
  | zero => simp at hf
  | succ f' =>
    have hs := sub3TryAt_some_len rest inter s hm
    have hsf : s.length ≤ f' := by simp at hf; omega
    simp only [flowSub3Go]
    rw [if_pos ⟨by trivial, by trivial⟩]
    simp only [hm]
    rw [flowSub3Go_fuel f' s.length s hsf (Nat.le_refl _)]

/-! ## C5: the flowchart sanitizer rewrites -/

/-- C5: in the flowchart dialect, a single-brace node label with
nonempty brace-free text, not adjacent to further braces, is rewritten
into the double-brace form with the label text kept; a double-brace
label whose brace-free interior holds one pair of double quotes loses
both quote characters; a double-brace label whose brace-free interior
holds one question or exclamation mark loses that character; the
remaining suffix is processed the same way in each case.  In particular
the node A-brace-Is-valid-question-brace becomes the double-braced
A-Is-valid with the question mark removed. -/
theorem c5_flowchart_sanitizer :
    (∀ (p t s : List Char), braceFreeB p = true → t ≠ [] → braceFreeB t = true →
      s.head? ≠ some '\x7d' →
      flowSub1Run (p ++ '\x7b' :: (t ++ '\x7d' :: s)) =
        p ++ '\x7b' :: '\x7b' :: (t ++ '\x7d' :: '\x7d' :: flowSub1Run s)) ∧
    (∀ (u v w s : List Char), labelPlainB u = true → labelPlainB v = true →
      labelPlainB w = true →
      flowSub2Run
          ('\x7b' :: '\x7b' :: ((u ++ '"' :: (v ++ '"' :: w)) ++ '\x7d' :: '\x7d' :: s)) =
        '\x7b' :: '\x7b' :: ((u ++ (v ++ w)) ++ '\x7d' :: '\x7d' :: flowSub2Run s)) ∧
    (∀ (u w s : List Char) (c : Char), isPunc c = true → puncPlainB u = true →
      puncPlainB w = true →
      flowSub3Run ('\x7b' :: '\x7b' :: ((u ++ c :: w) ++ '\x7d' :: '\x7d' :: s)) =
        '\x7b' :: '\x7b' :: ((u ++ w) ++ '\x7d' :: '\x7d' :: flowSub3Run s)) ∧
    sanitize_mermaid_code "flowchart TD\n    A\x7bIs valid?\x7d --> B" "Flowchart" =
      "flowchart TD\n    A\x7b\x7bIs valid\x7d\x7d --> B" := by
  refine ⟨?_, ?_, ?_, rfl⟩
  · intro p t s hp ht ht2 hs
    show flowSub1Go (p ++ '\x7b' :: (t ++ '\x7d' :: s)).length false
        (p ++ '\x7b' :: (t ++ '\x7d' :: s)) = _
    rw [flowSub1Go_skip p ('\x7b' :: (t ++ '\x7d' :: s)) _ hp (Nat.le_refl _)]
    rw [flowSub1Go_match t s _ ht ht2 hs (Nat.le_refl _)]
    rfl
  · intro u v w s hu hv hw
    show flowSub2Go _ _ = _
    rw [flowSub2Go_match ((u ++ '"' :: (v ++ '"' :: w)) ++ '\x7d' :: '\x7d' :: s)
      (u ++ (v ++ w)) s _ (sub2TryAt_eval u v w s hu hv hw) (Nat.le_refl _)]
    rfl
  · intro u w s c hc hu hw
    show flowSub3Go _ _ = _
    rw [flowSub3Go_match ((u ++ c :: w) ++ '\x7d' :: '\x7d' :: s)
      (u ++ w) s _ (sub3TryAt_eval u w s c hc hu hw) (Nat.le_refl _)]
    rfl

/-- C5 witness: concrete discharge of the side conditions of the three
rewrite rules. -/
theorem c5_witness :
    flowSub1Run ("A\x7bIs valid?\x7d ok".data) = "A\x7b\x7bIs valid?\x7d\x7d ok".data ∧
    flowSub2Run ("\x7b\x7bsay \"hi\" now\x7d\x7d!".data) = "\x7b\x7bsay hi now\x7d\x7d!".data ∧
    flowSub3Run ("\x7b\x7bIs valid?\x7d\x7d X".data) = "\x7b\x7bIs valid\x7d\x7d X".data := by
  refine ⟨?_, ?_, ?_⟩
  · rw [show ("A\x7bIs valid?\x7d ok".data : List Char) =
        "A".data ++ '\x7b' :: ("Is valid?".data ++ '\x7d' :: " ok".data) from by decide]
    rw [c5_flowchart_sanitizer.1 "A".data "Is valid?".data " ok".data
      (by decide) (by decide) (by decide) (by decide)]
    decide
  · rw [show ("\x7b\x7bsay \"hi\" now\x7d\x7d!".data : List Char) =
        '\x7b' :: '\x7b' :: (("say ".data ++ '"' :: ("hi".data ++ '"' :: " now".data)) ++
          '\x7d' :: '\x7d' :: "!".data) from by decide]
    rw [c5_flowchart_sanitizer.2.1 "say ".data "hi".data " now".data "!".data
      (by decide) (by decide) (by decide)]
    decide
  · rw [show ("\x7b\x7bIs valid?\x7d\x7d X".data : List Char) =
        '\x7b' :: '\x7b' :: (("Is valid".data ++ '?' :: []) ++
          '\x7d' :: '\x7d' :: " X".data) from by decide]
    rw [c5_flowchart_sanitizer.2.2.1 "Is valid".data [] " X".data '?'
      (by decide) (by decide) (by decide)]
    decide

end StudentTools
